import Mathlib

/-!
Verification development for the adaptive batch-processing orchestrator of
`pdf_knowledge_extractor` (module `claude_integration.py`).

The Python source is shallowly embedded: Python floats are modelled as `ℚ`
(the arithmetic of the policy formulas is exact decimal arithmetic),
Python ints as `ℕ`, ISO timestamps as an abstract clock value of type `ℚ`
supplied by the caller, dictionaries as insertion-ordered association
lists, and the external collaborators (the Claude CLI, PDF text
extraction, the content filter, the random jitter source) as explicit
oracle parameters.  Fallible operations return `Except`.
-/

/-- `ProcessingStatus` enum (claude_integration.py lines 29-36). -/
inductive ProcessingStatus where
  | pending
  | in_progress
  | completed
  | failed
  | retry_needed
  | skipped
deriving DecidableEq, Repr

/-- The string payload of each `ProcessingStatus` member (`.value` in Python). -/
def ProcessingStatus.value : ProcessingStatus → String
  | .pending => "pending"
  | .in_progress => "in_progress"
  | .completed => "completed"
  | .failed => "failed"
  | .retry_needed => "retry_needed"
  | .skipped => "skipped"

/-- `ProcessingStatus(s)`: enum lookup by value, as used by `load_state`. -/
def ProcessingStatus.fromValue? : String → Option ProcessingStatus
  | "pending" => some .pending
  | "in_progress" => some .in_progress
  | "completed" => some .completed
  | "failed" => some .failed
  | "retry_needed" => some .retry_needed
  | "skipped" => some .skipped
  | _ => none

/-- `ClaudeErrorType` enum (lines 39-48). -/
inductive ClaudeErrorType where
  | RATE_LIMIT
  | TIMEOUT
  | CONTENT_TOO_LARGE
  | INVALID_CONTENT
  | CLI_NOT_FOUND
  | CLI_AUTH_ERROR
  | NETWORK_ERROR
  | UNKNOWN_ERROR
deriving DecidableEq, Repr

/-- The string payload of each `ClaudeErrorType` member (`.value` in Python). -/
def ClaudeErrorType.value : ClaudeErrorType → String
  | .RATE_LIMIT => "rate_limit"
  | .TIMEOUT => "timeout"
  | .CONTENT_TOO_LARGE => "content_too_large"
  | .INVALID_CONTENT => "invalid_content"
  | .CLI_NOT_FOUND => "cli_not_found"
  | .CLI_AUTH_ERROR => "cli_auth_error"
  | .NETWORK_ERROR => "network_error"
  | .UNKNOWN_ERROR => "unknown_error"

/-- `ClaudeError` dataclass (lines 51-57). `retry_after` is seconds. -/
structure ClaudeError where
  error_type : ClaudeErrorType
  message : String
  retry_after : Option ℕ := none
  is_retryable : Bool := true
deriving DecidableEq, Repr

/-- `DocumentContext` dataclass (lines 60-103), every field included.
Floats are `ℚ`; optional ISO timestamps (`processing_start`,
`processing_end`, `quarantine_timestamp`, `next_retry_time`) are `Option ℚ`
holding the abstract clock value they were taken at. -/
structure DocumentContext where
  file_path : String
  filename : String
  size_mb : ℚ
  page_count : ℕ
  text_length : ℕ
  estimated_tokens : ℕ
  chunk_count : ℕ := 1
  processing_status : ProcessingStatus := .pending
  retry_count : ℕ := 0
  last_error : Option String := none
  last_error_type : Option ClaudeErrorType := none
  processing_start : Option ℚ := none
  processing_end : Option ℚ := none
  claude_response_length : ℕ := 0
  related_documents : List String := []
  retry_delays : List ℚ := []
  content_filtered : Bool := false
  quality_score : ℚ := 0
  quality_metrics : List (String × ℚ) := []
  document_type : String := "unknown"
  processing_difficulty : String := "normal"
  quarantined : Bool := false
  quarantine_reason : Option String := none
  quarantine_timestamp : Option ℚ := none
  consecutive_failures : ℕ := 0
  failure_pattern : List String := []
  retry_strategy : String := "standard"
  next_retry_time : Option ℚ := none
  success_probability : ℚ := 1
deriving DecidableEq, Repr

/-- The fields of `BatchProgress` (lines 106-148) that the retry loop and
batch loop read or write; the remaining fields are histograms and rolling
histories never consulted by the control flow modelled here. -/
structure BatchProgress where
  consecutive_failures : ℕ := 0
  rate_limit_hits : ℕ := 0
  claude_health_status : String := "unknown"
deriving DecidableEq, Repr

/-- The configuration values read in `ClaudeIntegration.__init__`
(lines 250-275), with the source's defaults. -/
structure Config where
  max_tokens_per_request : ℕ := 8000
  max_retries : ℕ := 3
  retry_delay_base : ℚ := 1
  retry_delay_max : ℚ := 30
  batch_size : ℕ := 5
  skip_failed : Bool := false
  health_check_enabled : Bool := true
  rate_limit_backoff_multiplier : ℚ := 2
  adaptive_batching : Bool := true
deriving Repr

/-- Python `str.lower` restricted to the character list. -/
def pyLower (s : String) : List Char := s.data.map Char.toLower

/-- Python's `needle in hay` substring test on an already-lowercased
haystack. -/
def containsSub (hay : List Char) (needle : String) : Bool :=
  decide (needle.data <:+: hay)

/-- `categorize_claude_error` (lines 390-467): substring/return-code match
rules in priority order. -/
def categorize_claude_error (error_msg : String) (return_code : ℤ) : ClaudeError :=
  let m := pyLower error_msg
  if containsSub m "rate limit" || containsSub m "too many requests" then
    { error_type := .RATE_LIMIT, message := error_msg, retry_after := some 60,
      is_retryable := true }
  else if containsSub m "timeout" || return_code == 124 then
    { error_type := .TIMEOUT, message := error_msg, retry_after := some 5,
      is_retryable := true }
  else if containsSub m "too large" || containsSub m "content length" then
    { error_type := .CONTENT_TOO_LARGE, message := error_msg, is_retryable := false }
  else if containsSub m "auth" || containsSub m "unauthorized" || return_code == 401 then
    { error_type := .CLI_AUTH_ERROR, message := error_msg, is_retryable := false }
  else if containsSub m "command not found" || containsSub m "no such file"
      || return_code == 127 then
    { error_type := .CLI_NOT_FOUND, message := error_msg, is_retryable := false }
  else if containsSub m "network" || containsSub m "connection" then
    { error_type := .NETWORK_ERROR, message := error_msg, retry_after := some 10,
      is_retryable := true }
  else if containsSub m "invalid" || containsSub m "malformed" then
    { error_type := .INVALID_CONTENT, message := error_msg, is_retryable := false }
  else
    { error_type := .UNKNOWN_ERROR, message := error_msg, retry_after := some 5,
      is_retryable := true }

/-- `calculate_exponential_backoff` (lines 469-495).  The call to
`random.uniform(0.1, 0.3)` is the oracle parameter `jitterFactor`; the
source draws it from `[0.1, 0.3]`, and passing `0` recovers the
delay with the jitter term removed. -/
def calculate_exponential_backoff (cfg : Config) (jitterFactor : ℚ)
    (attempt : ℕ) (error_type : ClaudeErrorType) (base_delay? : Option ℚ) : ℚ :=
  let base_delay := base_delay?.getD cfg.retry_delay_base
  let base_delay :=
    if error_type = .RATE_LIMIT then
      max base_delay 2 * cfg.rate_limit_backoff_multiplier
    else if error_type = .NETWORK_ERROR then
      max base_delay 1
    else base_delay
  let delay := min (base_delay * 2 ^ attempt) cfg.retry_delay_max
  let jitter := jitterFactor * delay
  delay + jitter

/-- `calculate_success_probability` (lines 497-540).  Note the source
compares the entries of `failure_pattern` — which the retry loop records
as `ClaudeErrorType.value` strings such as `"cli_auth_error"` — against
the enum **member names** `'CLI_NOT_FOUND'`, `'CLI_AUTH_ERROR'`,
`'CONTENT_TOO_LARGE'` (line 524). -/
def calculate_success_probability (context : DocumentContext) : ℚ :=
  let base_probability : ℚ := 0.8
  let retry_penalty := min ((context.retry_count : ℚ) * 0.15) 0.6
  let probability := base_probability - retry_penalty
  let probability :=
    if context.failure_pattern ≠ [] then
      let error_types := context.failure_pattern.dedup
      let probability := if error_types.length > 2 then probability * 0.7 else probability
      let non_retryable_count :=
        (context.failure_pattern.filter
          (fun e => e ∈ ["CLI_NOT_FOUND", "CLI_AUTH_ERROR", "CONTENT_TOO_LARGE"])).length
      if non_retryable_count > 0 then probability * 0.3 else probability
    else probability
  let quality_factor := max context.quality_score 0.2
  let probability := probability * quality_factor
  let probability :=
    if context.estimated_tokens > 50000 then probability * 0.8
    else if context.estimated_tokens > 20000 then probability * 0.9
    else probability
  max (min probability 1) 0

/-- `determine_retry_strategy` (lines 542-570). -/
def determine_retry_strategy (cfg : Config) (context : DocumentContext) : String :=
  let success_prob := calculate_success_probability context
  if success_prob < 0.2 then "skip"
  else if context.consecutive_failures ≥ 3 ∨ success_prob < 0.4
      ∨ context.retry_count ≥ cfg.max_retries - 1 then "conservative"
  else if success_prob > 0.7 ∧ context.retry_count ≤ 1
      ∧ context.quality_score > 0.8 then "aggressive"
  else "standard"

/-- `should_quarantine_document` (lines 572-609); returns
`(should_quarantine, reason)`.  The source's low-probability reason string
interpolates the probability formatted to two decimals; the formatted
number is elided here (no claim inspects it). -/
def should_quarantine_document (context : DocumentContext)
    (error_type : ClaudeErrorType) : Bool × String :=
  if context.quarantined then
    (false, "Already quarantined")
  else if error_type ∈ [ClaudeErrorType.CLI_NOT_FOUND, ClaudeErrorType.CLI_AUTH_ERROR] then
    (true, "Critical system error: " ++ error_type.value)
  else if context.consecutive_failures ≥ 5 then
    (true, "Too many consecutive failures (" ++ toString context.consecutive_failures ++ ")")
  else
    let last_error_count :=
      ((context.failure_pattern.drop (context.failure_pattern.length - 3)).filter
        (fun err => err = error_type.value)).length
    if context.failure_pattern ≠ [] ∧ last_error_count ≥ 3 then
      (true, "Repeated " ++ error_type.value ++ " errors")
    else
      let success_prob := calculate_success_probability context
      if success_prob < 0.1 then
        (true, "Very low success probability")
      else
        (false, "No quarantine needed")

/-- `quarantine_document` (lines 611-629); `now` is the abstract clock.
`next_retry_time` is `now` plus `min(2^consecutive_failures, 24)` hours. -/
def quarantine_document (context : DocumentContext) (reason : String)
    (now : ℚ) : DocumentContext :=
  let quarantine_delay_hours : ℚ := min ((2 : ℚ) ^ context.consecutive_failures) 24
  { context with
    quarantined := true
    quarantine_reason := some reason
    quarantine_timestamp := some now
    processing_status := .skipped
    next_retry_time := some (now + quarantine_delay_hours * 3600) }

/-- `release_from_quarantine` (lines 646-659). -/
def release_from_quarantine (context : DocumentContext) : DocumentContext :=
  { context with
    quarantined := false
    processing_status := .pending
    next_retry_time := none
    consecutive_failures := context.consecutive_failures - 1 }

/-- `calculate_adaptive_batch_size` (lines 1093-1115). -/
def calculate_adaptive_batch_size (cfg : Config) (context : DocumentContext) : ℕ :=
  if context.estimated_tokens < 5000 then min (cfg.batch_size * 2) 10
  else if context.estimated_tokens < 20000 then min cfg.batch_size 5
  else min (cfg.batch_size / 2) 2

/-- The four complexity groups built by `group_documents_by_complexity`
(lines 1117-1144), in the dict's insertion order. -/
structure ComplexityGroups where
  small : List (String × DocumentContext)
  medium : List (String × DocumentContext)
  large : List (String × DocumentContext)
  failed : List (String × DocumentContext)

/-- Context store: `self.document_contexts`, an insertion-ordered dict
path ↦ context, modelled as an association list with unique keys. -/
abbrev ContextStore := List (String × DocumentContext)

/-- `group_documents_by_complexity` (lines 1117-1144): non-`PENDING`
documents are dropped; among the pending ones, any with `retry_count > 0`
goes to `failed` regardless of size, the rest bucket by token count. -/
def group_documents_by_complexity (store : ContextStore) : ComplexityGroups where
  small := store.filter fun d =>
    d.2.processing_status = .pending ∧ ¬ d.2.retry_count > 0 ∧ d.2.estimated_tokens < 5000
  medium := store.filter fun d =>
    d.2.processing_status = .pending ∧ ¬ d.2.retry_count > 0 ∧
      ¬ d.2.estimated_tokens < 5000 ∧ d.2.estimated_tokens < 20000
  large := store.filter fun d =>
    d.2.processing_status = .pending ∧ ¬ d.2.retry_count > 0 ∧ ¬ d.2.estimated_tokens < 20000
  failed := store.filter fun d =>
    d.2.processing_status = .pending ∧ d.2.retry_count > 0

/-- The per-document document-count cap used inside the `create_batches`
loop (lines 1179, 1188): the adaptive batch size, overridden to 1 for the
`failed` group. -/
def batch_count_cap (cfg : Config) (level : String) (context : DocumentContext) : ℕ :=
  if level = "failed" then 1 else calculate_adaptive_batch_size cfg context

/-- The per-document token limit used inside the `create_batches` loop
(lines 1181-1191). -/
def batch_token_limit (cfg : Config) (level : String) (context : DocumentContext) : ℕ :=
  if level = "large" then cfg.max_tokens_per_request / 2
  else if level = "failed" then context.estimated_tokens + 1000
  else cfg.max_tokens_per_request

/-- The greedy packing loop shared by `create_batches` (lines 1174-1207)
and `_create_simple_batches` (lines 1220-1246): `batches` are the closed
batches, `current`/`current_tokens` the open batch and its token counter.
A document is first allowed to close the open batch (only when the open
batch is non-empty) and is then always appended. -/
def pack_batches (capF tokF : DocumentContext → ℕ) :
    List (String × DocumentContext) → List (List (String × DocumentContext)) →
      List (String × DocumentContext) → ℕ → List (List (String × DocumentContext))
  | [], batches, current, _ =>
      if current = [] then batches else batches ++ [current]
  | d :: rest, batches, current, current_tokens =>
      let would_exceed_count := current.length ≥ capF d.2
      let would_exceed_tokens := current_tokens + d.2.estimated_tokens > tokF d.2
      if (would_exceed_count ∨ would_exceed_tokens) ∧ current ≠ [] then
        pack_batches capF tokF rest (batches ++ [current]) [d] d.2.estimated_tokens
      else
        pack_batches capF tokF rest batches (current ++ [d])
          (current_tokens + d.2.estimated_tokens)

/-- `docs.sort(key=lambda x: x[1].estimated_tokens)` (lines 1172, 1228):
Python's sort is stable; insertion sort inserting before the first
strictly-greater-or-equal key, applied front-to-back, produces the same
stable ascending order. -/
def sort_by_tokens (docs : List (String × DocumentContext)) :
    List (String × DocumentContext) :=
  List.insertionSort (fun a b => a.2.estimated_tokens ≤ b.2.estimated_tokens) docs

/-- One group's slice of `create_batches`: sort ascending by estimated
tokens (line 1172) and pack greedily.  The batches retain the
`(path, context)` pairs; the source keeps only the paths (recovered by
`create_batches` below via `map Prod.fst`). -/
def create_batches_for_group (cfg : Config) (level : String)
    (docs : List (String × DocumentContext)) :
    List (List (String × DocumentContext)) :=
  pack_batches (batch_count_cap cfg level) (batch_token_limit cfg level)
    (sort_by_tokens docs) [] [] 0

/-- `_create_simple_batches` (lines 1214-1249), on `(path, context)`
pairs: pending documents sorted by token count, packed with the flat
`batch_size` cap and `max_tokens_per_request` token limit. -/
def create_simple_batches_ctx (cfg : Config) (store : ContextStore) :
    List (List (String × DocumentContext)) :=
  pack_batches (fun _ => cfg.batch_size) (fun _ => cfg.max_tokens_per_request)
    (sort_by_tokens (store.filter fun d => d.2.processing_status = .pending)) [] [] 0

/-- `create_batches` (lines 1146-1212) on `(path, context)` pairs: the
four complexity groups are packed in dict order small, medium, large,
failed and the per-group batch lists concatenated. -/
def create_batches_ctx (cfg : Config) (store : ContextStore) :
    List (List (String × DocumentContext)) :=
  if ¬ cfg.adaptive_batching then create_simple_batches_ctx cfg store
  else
    let g := group_documents_by_complexity store
    create_batches_for_group cfg "small" g.small
      ++ create_batches_for_group cfg "medium" g.medium
      ++ create_batches_for_group cfg "large" g.large
      ++ create_batches_for_group cfg "failed" g.failed

/-- `create_batches` as the source returns it: lists of document paths. -/
def create_batches (cfg : Config) (store : ContextStore) : List (List String) :=
  (create_batches_ctx cfg store).map (List.map Prod.fst)

/-- Token total of a packed batch (the source tracks it in
`current_batch_tokens`). -/
def batch_tokens (b : List (String × DocumentContext)) : ℕ :=
  (b.map fun d => d.2.estimated_tokens).sum

/-- Outcome of one invocation of the external Analysis Service
(`claude_processing`): either a response string or a raised exception
message. -/
inductive ServiceOutcome where
  | ok (response : String)
  | raise (msg : String)

/-- The external collaborators of `process_document_with_retry`, per
document: the PDF text extraction (`PDFExtractor.extract_text`), the
pre-filter verdict (`should_filter_document`), the Analysis Service
response for each attempt number, and the jitter drawn for each attempt's
backoff. -/
structure DocOracles where
  extract : ServiceOutcome
  filter_verdict : Bool × String
  service : ℕ → ServiceOutcome
  jitter : ℕ → ℚ

/-- Result of `process_document_with_retry`: the returned
`(success, message)` pair together with the mutated document context and
progress aggregate, and the number of Analysis Service invocations
performed. -/
structure RunOutcome where
  success : Bool
  message : String
  context : DocumentContext
  progress : Option BatchProgress
  invocations : ℕ
deriving Repr

/-- Result of one iteration of the retry `for` loop: an early `return`,
or the mutated state carried to the next attempt. -/
inductive StepResult where
  | done (r : RunOutcome)
  | next (context : DocumentContext) (progress : Option BatchProgress) (invocations : ℕ)

/-- The failure bookkeeping of the retry loop's `except` arm (lines
1662-1687): record the attempt and message, extend the bounded failure
pattern with the kind's `.value` string (keeping the last 10), and
recompute success probability and retry strategy. -/
def failure_update (cfg : Config) (context : DocumentContext) (attempt : ℕ)
    (claude_error : ClaudeError) (msg : String) : DocumentContext :=
  let failure_pattern := context.failure_pattern ++ [claude_error.error_type.value]
  let failure_pattern :=
    if failure_pattern.length > 10 then failure_pattern.tail else failure_pattern
  let context := { context with
    retry_count := attempt
    last_error := some msg
    last_error_type := some claude_error.error_type
    consecutive_failures := context.consecutive_failures + 1
    failure_pattern := failure_pattern }
  let context := { context with
    success_probability := calculate_success_probability context }
  { context with retry_strategy := determine_retry_strategy cfg context }

/-- The body of the retry loop of `process_document_with_retry`
(lines 1648-1781) for one value of `attempt`.  The source categorizes the
raised exception with return code 1 (line 1669-1671; both branches of its
`if` are identical); the inner `except Exception` fallback (lines
1712-1720) is unreachable here because categorization is total. -/
def retry_attempt_step (cfg : Config) (orc : DocOracles) (now : ℚ) (attempt : ℕ)
    (context : DocumentContext) (progress : Option BatchProgress)
    (invocations : ℕ) : StepResult :=
  let invocations := invocations + 1
  match orc.service attempt with
  | .ok claude_response =>
      .done { success := true, message := claude_response
              context := { context with
                claude_response_length := claude_response.length
                processing_end := some now
                processing_status := .completed
                last_error_type := none }
              progress := progress, invocations := invocations }
  | .raise msg =>
      let claude_error := categorize_claude_error msg 1
      let context := failure_update cfg context attempt claude_error msg
      let quarantine_check := should_quarantine_document context claude_error.error_type
      if quarantine_check.1 then
        .done { success := false
                message := "Document quarantined: " ++ quarantine_check.2
                context := quarantine_document context quarantine_check.2 now
                progress := progress, invocations := invocations }
      else if ¬ claude_error.is_retryable then
        .done { success := false, message := "Non-retryable error: " ++ msg
                context := { context with
                  processing_status := .failed, processing_end := some now }
                progress := progress, invocations := invocations }
      else if context.retry_strategy = "skip" then
        .done { success := false
                message := "Skipped due to low success probability: " ++ msg
                context := { context with
                  processing_status := .skipped, processing_end := some now }
                progress := progress, invocations := invocations }
      else if cfg.skip_failed ∧ claude_error.error_type ∈
          [ClaudeErrorType.CLI_NOT_FOUND, ClaudeErrorType.CLI_AUTH_ERROR,
           ClaudeErrorType.CONTENT_TOO_LARGE] then
        .done { success := false, message := "Document skipped: " ++ msg
                context := { context with
                  processing_status := .skipped, processing_end := some now }
                progress := progress, invocations := invocations }
      else if attempt < cfg.max_retries then
        let base_delay :=
          calculate_exponential_backoff cfg (orc.jitter attempt) attempt
            claude_error.error_type none
        let strategy_multiplier : ℚ :=
          if context.retry_strategy = "aggressive" then 0.5
          else if context.retry_strategy = "standard" then 1
          else if context.retry_strategy = "conservative" then 2
          else 1
        let delay := base_delay * strategy_multiplier
        let delay :=
          match claude_error.retry_after with
          | some w => if w ≠ 0 then max delay (w : ℚ) else delay
          | none => delay
        let delay :=
          if context.consecutive_failures > 2 then
            delay * (1 + ((context.consecutive_failures : ℚ) - 2) * 0.3)
          else delay
        let context := { context with retry_delays := context.retry_delays ++ [delay] }
        let progress :=
          if claude_error.error_type = .RATE_LIMIT then
            progress.map fun bp =>
              { bp with rate_limit_hits := bp.rate_limit_hits + 1
                        claude_health_status := "degraded" }
          else progress
        .next context progress invocations
      else
        let progress := progress.map fun bp =>
          let cf := bp.consecutive_failures + 1
          { bp with consecutive_failures := cf
                    claude_health_status :=
                      if cf ≥ 5 then "unhealthy" else bp.claude_health_status }
        .done { success := false, message := msg
                context := { context with
                  processing_status := .failed, processing_end := some now }
                progress := progress, invocations := invocations }

/-- The retry `for attempt in range(max_retries + 1)` loop, with the
remaining iteration count as fuel (entered with `max_retries + 1`); the
fuel-exhausted case is the source's fallthrough `return False, "Max
retries exceeded"` (line 1782). -/
def retry_loop (cfg : Config) (orc : DocOracles) (now : ℚ) :
    ℕ → ℕ → DocumentContext → Option BatchProgress → ℕ → RunOutcome
  | 0, _, context, progress, invocations =>
      { success := false, message := "Max retries exceeded"
        context := context, progress := progress, invocations := invocations }
  | fuel + 1, attempt, context, progress, invocations =>
      match retry_attempt_step cfg orc now attempt context progress invocations with
      | .done r => r
      | .next context progress invocations =>
          retry_loop cfg orc now fuel (attempt + 1) context progress invocations

/-- `process_document_with_retry` (lines 1600-1782) for a context already
fetched from the store: the pre-retry phase (timestamps, text extraction,
pre-filtering — lines 1613-1645) followed by the retry loop.  Python's
`if not text.strip():` is the all-whitespace test on the characters.  The keyword
index built at line 1645 is not modelled (no claim reads it). -/
def process_document_with_retry (cfg : Config) (orc : DocOracles) (now : ℚ)
    (context0 : DocumentContext) (progress : Option BatchProgress) : RunOutcome :=
  let context := { context0 with
    processing_start := some now
    processing_status := .in_progress
    retry_delays := [] }
  match orc.extract with
  | .raise msg =>
      { success := false, message := "Text extraction failed: " ++ msg
        context := { context with
          processing_status := .failed
          last_error := some ("Text extraction failed: " ++ msg)
          last_error_type := some .INVALID_CONTENT }
        progress := progress, invocations := 0 }
  | .ok text =>
      if text.data.all Char.isWhitespace then
        { success := false, message := "No text extracted from PDF"
          context := { context with
            processing_status := .failed
            last_error := some "No text extracted from PDF"
            last_error_type := some .INVALID_CONTENT }
          progress := progress, invocations := 0 }
      else
        let verdict := orc.filter_verdict
        if verdict.1 then
          let context := { context with
            processing_status := .skipped
            last_error := some ("Document filtered: " ++ verdict.2)
            content_filtered := true }
          if cfg.skip_failed then
            { success := false
              message := "Document filtered and skipped: " ++ verdict.2
              context := context, progress := progress, invocations := 0 }
          else
            retry_loop cfg orc now (cfg.max_retries + 1) 0 context progress 0
        else
          retry_loop cfg orc now (cfg.max_retries + 1) 0 context progress 0

/-- The orchestrator state touched by `process_batch`: the context store,
the progress aggregate, the processed-batch keys and a count of Analysis
Service invocations (for auditing how often the service was called). -/
structure IntegrationState where
  store : ContextStore
  progress : Option BatchProgress
  processed_batches : List String
  invocations : ℕ

/-- In-place mutation of one document's context in the store. -/
def store_update (store : ContextStore) (path : String)
    (context : DocumentContext) : ContextStore :=
  store.map fun e => if e.1 = path then (e.1, context) else e

/-- The per-document body of the `process_batch` loop (lines 1826-1889):
look the context up, run the retry pipeline, and on success record the
related documents found via the keyword index (`find_related_documents`,
supplied as the oracle `related`).  The progress-bar updates, logging and
periodic `save_state` calls mutate nothing modelled here. -/
def process_batch_doc (cfg : Config) (orcFor : String → DocOracles)
    (related : String → List String) (now : ℚ)
    (acc : (ℕ × ℕ) × IntegrationState) (path : String) :
    (ℕ × ℕ) × IntegrationState :=
  let ((successful, failed), st) := acc
  match st.store.lookup path with
  | none => ((successful, failed + 1), st)
  | some context =>
      let out := process_document_with_retry cfg (orcFor path) now context st.progress
      if out.success then
        let progress := out.progress.map fun bp =>
          { bp with consecutive_failures := 0
                    claude_health_status :=
                      if bp.claude_health_status = "degraded" then "healthy"
                      else bp.claude_health_status }
        let context := { out.context with related_documents := related path }
        ((successful + 1, failed),
         { st with store := store_update st.store path context
                   progress := progress
                   invocations := st.invocations + out.invocations })
      else
        ((successful, failed + 1),
         { st with store := store_update st.store path out.context
                   progress := out.progress
                   invocations := st.invocations + out.invocations })

/-- `process_batch` (lines 1784-1897).  `health` is the outcome of the
`test_claude_cli_health` probe of the external CLI (lines 661-688), an
external collaborator.  If the probe fails and `skip_failed` is set, the
loop is never entered (`return 0, len(batch)` at line 1806) — note the
early return changes no document status.  Returns the source's
`(successful, failed)` pair and the mutated state. -/
def process_batch (cfg : Config) (health : Bool × String)
    (orcFor : String → DocOracles) (related : String → List String) (now : ℚ)
    (st : IntegrationState) (batch : List String) (batch_number : ℕ) :
    (ℕ × ℕ) × IntegrationState :=
  let gate : Option ((ℕ × ℕ) × IntegrationState) × IntegrationState :=
    if cfg.health_check_enabled then
      if ¬ health.1 then
        let st := { st with
          progress := st.progress.map fun bp =>
            { bp with claude_health_status := "unhealthy" } }
        if cfg.skip_failed then (some ((0, batch.length), st), st) else (none, st)
      else
        (none, { st with
          progress := st.progress.map fun bp =>
            { bp with claude_health_status := "healthy", consecutive_failures := 0 } })
    else (none, st)
  match gate with
  | (some result, _) => result
  | (none, st) =>
      let ((successful, failed), st) :=
        batch.foldl (process_batch_doc cfg orcFor related now) ((0, 0), st)
      let batch_key :=
        "batch_" ++ toString batch_number ++ "_" ++ toString batch.length ++ "_docs"
      let st :=
        if batch_key ∈ st.processed_batches then st
        else { st with processed_batches := st.processed_batches ++ [batch_key] }
      ((successful, failed), st)

/-- JSON values as Python's `json` module produces and parses them.
Python ints and floats are distinct JSON-side; every integer serialized
by `save_state` is a count, hence `jint` carries `ℕ`, while floats carry
`ℚ`. -/
inductive JVal where
  | jnull
  | jbool (b : Bool)
  | jint (n : ℕ)
  | jnum (q : ℚ)
  | jstr (s : String)
  | jarr (xs : List JVal)
  | jobj (kvs : List (String × JVal))
deriving Repr

/-- Encode an optional string (JSON `null` when absent). -/
def jOptStr : Option String → JVal
  | none => .jnull
  | some s => .jstr s

/-- Encode an optional float/timestamp. -/
def jOptNum : Option ℚ → JVal
  | none => .jnull
  | some q => .jnum q

/-- The serialization of one document context performed by `save_state`
(line 357): `{**asdict(context), 'processing_status':
context.processing_status.value}` fed to `json.dump`.
`dataclasses.asdict` converts nested containers but leaves `Enum` members
as they are, so a non-`None` `last_error_type` (of type `ClaudeErrorType`)
reaches `json.dump`, which raises `TypeError` — only `processing_status`
is converted to its string value by hand. -/
def encode_document_context (c : DocumentContext) : Except String JVal :=
  match c.last_error_type with
  | some _ => .error "Object of type ClaudeErrorType is not JSON serializable"
  | none => .ok (.jobj
      [("file_path", .jstr c.file_path),
       ("filename", .jstr c.filename),
       ("size_mb", .jnum c.size_mb),
       ("page_count", .jint c.page_count),
       ("text_length", .jint c.text_length),
       ("estimated_tokens", .jint c.estimated_tokens),
       ("chunk_count", .jint c.chunk_count),
       ("processing_status", .jstr c.processing_status.value),
       ("retry_count", .jint c.retry_count),
       ("last_error", jOptStr c.last_error),
       ("last_error_type", .jnull),
       ("processing_start", jOptNum c.processing_start),
       ("processing_end", jOptNum c.processing_end),
       ("claude_response_length", .jint c.claude_response_length),
       ("related_documents", .jarr (c.related_documents.map .jstr)),
       ("retry_delays", .jarr (c.retry_delays.map .jnum)),
       ("content_filtered", .jbool c.content_filtered),
       ("quality_score", .jnum c.quality_score),
       ("quality_metrics", .jobj (c.quality_metrics.map fun kv => (kv.1, .jnum kv.2))),
       ("document_type", .jstr c.document_type),
       ("processing_difficulty", .jstr c.processing_difficulty),
       ("quarantined", .jbool c.quarantined),
       ("quarantine_reason", jOptStr c.quarantine_reason),
       ("quarantine_timestamp", jOptNum c.quarantine_timestamp),
       ("consecutive_failures", .jint c.consecutive_failures),
       ("failure_pattern", .jarr (c.failure_pattern.map .jstr)),
       ("retry_strategy", .jstr c.retry_strategy),
       ("next_retry_time", jOptNum c.next_retry_time),
       ("success_probability", .jnum c.success_probability)])

/-- `save_state` (lines 348-376): the `state_data` dict handed to
`json.dump`.  The keyword index's sets are serialized as lists
(`list(v)`, line 360).  An `Except.error` models the `TypeError` raised
inside `json.dump` (swallowed by the source's `except` clause after the
state file has already been truncated). -/
def save_state (store : ContextStore) (keyword_index : List (String × List String))
    (processed_batches : List String) (now : ℚ) : Except String JVal := do
  let contexts ← store.mapM fun pc => do
    let j ← encode_document_context pc.2
    pure (pc.1, j)
  pure (.jobj
    [("document_contexts", .jobj contexts),
     ("keyword_index", .jobj (keyword_index.map fun kv =>
        (kv.1, .jarr (kv.2.map .jstr)))),
     ("processed_batches", .jarr (processed_batches.map .jstr)),
     ("last_updated", .jnum now)])

/-- Dict key lookup during `load_state`'s reconstruction. -/
def jGet (kvs : List (String × JVal)) (k : String) : Except String JVal :=
  match kvs.lookup k with
  | some v => .ok v
  | none => .error ("KeyError: " ++ k)

/-- Typed projections out of a loaded JSON value, as
`DocumentContext(**context_data)` implicitly assumes each field's shape. -/
def JVal.asStr : JVal → Except String String
  | .jstr s => .ok s
  | _ => .error "expected string"

/-- Projection to a count. -/
def JVal.asNat : JVal → Except String ℕ
  | .jint n => .ok n
  | _ => .error "expected int"

/-- Projection to a float. -/
def JVal.asNum : JVal → Except String ℚ
  | .jnum q => .ok q
  | .jint n => .ok (n : ℚ)
  | _ => .error "expected number"

/-- Projection to a bool. -/
def JVal.asBool : JVal → Except String Bool
  | .jbool b => .ok b
  | _ => .error "expected bool"

/-- Projection to an optional string. -/
def JVal.asOptStr : JVal → Except String (Option String)
  | .jnull => .ok none
  | .jstr s => .ok (some s)
  | _ => .error "expected string or null"

/-- Projection to an optional float. -/
def JVal.asOptNum : JVal → Except String (Option ℚ)
  | .jnull => .ok none
  | .jnum q => .ok (some q)
  | .jint n => .ok (some (n : ℚ))
  | _ => .error "expected number or null"

/-- Projection to a list of strings. -/
def JVal.asStrList : JVal → Except String (List String)
  | .jarr xs => xs.mapM JVal.asStr
  | _ => .error "expected array of strings"

/-- Projection to a list of floats. -/
def JVal.asNumList : JVal → Except String (List ℚ)
  | .jarr xs => xs.mapM JVal.asNum
  | _ => .error "expected array of numbers"

/-- Projection to a string-keyed float dict. -/
def JVal.asNumDict : JVal → Except String (List (String × ℚ))
  | .jobj kvs => kvs.mapM fun kv => do pure (kv.1, ← kv.2.asNum)
  | _ => .error "expected object of numbers"

/-- The reconstruction of one document context in `load_state`
(lines 326-328): `context_data['processing_status'] =
ProcessingStatus(context_data['processing_status'])` then
`DocumentContext(**context_data)`.  `load_state` converts only the status
string back to an enum; a non-null `last_error_type` has no decoding
(the source would store the raw JSON value in the typed field), which is
unreachable for files written by `save_state`. -/
def decode_document_context (j : JVal) : Except String DocumentContext := do
  let .jobj kvs := j | .error "expected object"
  let statusStr ← (← jGet kvs "processing_status").asStr
  let some processing_status := ProcessingStatus.fromValue? statusStr
    | .error ("'" ++ statusStr ++ "' is not a valid ProcessingStatus")
  let last_error_type ← match ← jGet kvs "last_error_type" with
    | .jnull => pure (none : Option ClaudeErrorType)
    | _ => .error "unmodelled: untyped last_error_type"
  pure
    { file_path := ← (← jGet kvs "file_path").asStr
      filename := ← (← jGet kvs "filename").asStr
      size_mb := ← (← jGet kvs "size_mb").asNum
      page_count := ← (← jGet kvs "page_count").asNat
      text_length := ← (← jGet kvs "text_length").asNat
      estimated_tokens := ← (← jGet kvs "estimated_tokens").asNat
      chunk_count := ← (← jGet kvs "chunk_count").asNat
      processing_status := processing_status
      retry_count := ← (← jGet kvs "retry_count").asNat
      last_error := ← (← jGet kvs "last_error").asOptStr
      last_error_type := last_error_type
      processing_start := ← (← jGet kvs "processing_start").asOptNum
      processing_end := ← (← jGet kvs "processing_end").asOptNum
      claude_response_length := ← (← jGet kvs "claude_response_length").asNat
      related_documents := ← (← jGet kvs "related_documents").asStrList
      retry_delays := ← (← jGet kvs "retry_delays").asNumList
      content_filtered := ← (← jGet kvs "content_filtered").asBool
      quality_score := ← (← jGet kvs "quality_score").asNum
      quality_metrics := ← (← jGet kvs "quality_metrics").asNumDict
      document_type := ← (← jGet kvs "document_type").asStr
      processing_difficulty := ← (← jGet kvs "processing_difficulty").asStr
      quarantined := ← (← jGet kvs "quarantined").asBool
      quarantine_reason := ← (← jGet kvs "quarantine_reason").asOptStr
      quarantine_timestamp := ← (← jGet kvs "quarantine_timestamp").asOptNum
      consecutive_failures := ← (← jGet kvs "consecutive_failures").asNat
      failure_pattern := ← (← jGet kvs "failure_pattern").asStrList
      retry_strategy := ← (← jGet kvs "retry_strategy").asStr
      next_retry_time := ← (← jGet kvs "next_retry_time").asOptNum
      success_probability := ← (← jGet kvs "success_probability").asNum }

/-- `load_state` (lines 311-346): reconstruct the document contexts, the
keyword index (`set(v)` applied to each list) and the processed-batch
list from the parsed state file; any failure is caught and the load
reports `False` (here: `Except.error`). -/
def load_state (j : JVal) :
    Except String (ContextStore × List (String × List String) × List String) := do
  let .jobj kvs := j | .error "expected state object"
  let .jobj ctxKvs ← jGet kvs "document_contexts" | .error "expected dict"
  let store ← ctxKvs.mapM fun pc => do
    let c ← decode_document_context pc.2
    pure (pc.1, c)
  let .jobj kwKvs ← jGet kvs "keyword_index" | .error "expected dict"
  let keyword_index ← kwKvs.mapM fun kv => do
    pure (kv.1, ← kv.2.asStrList)
  let processed_batches ← (← jGet kvs "processed_batches").asStrList
  pure (store, keyword_index, processed_batches)

/-- The guarded quarantine step of the retry loop (lines 1689-1696): run
the check and quarantine only when it fires. -/
def quarantine_check_step (context : DocumentContext)
    (error_type : ClaudeErrorType) (now : ℚ) : DocumentContext :=
  let check := should_quarantine_document context error_type
  if check.1 then quarantine_document context check.2 now else context

/-- Claim C10: a document context that is already quarantined is never
quarantined again: `should_quarantine_document` returns false (with
reason "Already quarantined") for every error kind, hence the guarded
quarantine step leaves the context — in particular its
`quarantine_reason`, `quarantine_timestamp` and `next_retry_time` —
unchanged. -/
theorem c10_quarantined_never_requarantined (context : DocumentContext)
    (error_type : ClaudeErrorType) (now : ℚ)
    (hq : context.quarantined = true) :
    should_quarantine_document context error_type = (false, "Already quarantined") ∧
    quarantine_check_step context error_type now = context := by
  constructor
  · simp [should_quarantine_document, hq]
  · simp [quarantine_check_step, should_quarantine_document, hq]

/-- A concrete quarantined document context. -/
def quarantinedSample : DocumentContext :=
  { file_path := "a.pdf", filename := "a.pdf", size_mb := 1, page_count := 2,
    text_length := 100, estimated_tokens := 25, quarantined := true,
    quarantine_reason := some "r", quarantine_timestamp := some 5,
    next_retry_time := some 9 }

/-- Witness for C10 at a concrete quarantined context. -/
theorem c10_quarantined_never_requarantined_witness :
    quarantinedSample.quarantined = true ∧
    (should_quarantine_document quarantinedSample ClaudeErrorType.CLI_AUTH_ERROR
        = (false, "Already quarantined") ∧
     quarantine_check_step quarantinedSample ClaudeErrorType.CLI_AUTH_ERROR 7
        = quarantinedSample) :=
  ⟨rfl, c10_quarantined_never_requarantined quarantinedSample
    ClaudeErrorType.CLI_AUTH_ERROR 7 rfl⟩

/-- A non-quarantined context whose last three recorded failures are all
`rate_limit`, after its 3rd consecutive failure. -/
def thirdRateLimitFailureCtx : DocumentContext :=
  { file_path := "b.pdf", filename := "b.pdf", size_mb := 1, page_count := 3,
    text_length := 4000, estimated_tokens := 1000, retry_count := 2,
    consecutive_failures := 3, quality_score := 1,
    failure_pattern := ["rate_limit", "rate_limit", "rate_limit"] }

/-- Claim C8, counterexample: quarantine is NOT only triggered at the 5th
consecutive failure — a document at its 3rd consecutive failure, all of
kind `RateLimit`, already triggers quarantine (the repeated-same-kind
rule fires before `consecutive_failures` reaches 5). -/
theorem c8_counterexample :
    (should_quarantine_document thirdRateLimitFailureCtx ClaudeErrorType.RATE_LIMIT).1
        = true ∧
    thirdRateLimitFailureCtx.consecutive_failures = 3 ∧
    (should_quarantine_document thirdRateLimitFailureCtx ClaudeErrorType.RATE_LIMIT).2
        = "Repeated rate_limit errors" := by
  refine ⟨?_, rfl, ?_⟩ <;> rfl

/-- Claim C8 (amended): a non-quarantined document that reaches 5
consecutive failures is quarantined at that failure — for every error
kind, `should_quarantine_document` fires whenever
`consecutive_failures ≥ 5` — but quarantine can also fire at an earlier
failure (systemic kinds, a kind repeated 3 times in the last 3 failures,
or very low success probability). -/
theorem c8_quarantine_at_five_consecutive_failures
    (context : DocumentContext) (error_type : ClaudeErrorType)
    (hq : context.quarantined = false)
    (hcf : 5 ≤ context.consecutive_failures) :
    (should_quarantine_document context error_type).1 = true := by
  unfold should_quarantine_document
  simp only [hq, Bool.false_eq_true, if_false, ge_iff_le, hcf, if_true]
  split <;> simp

/-- Witness for C8 at a concrete context with 5 consecutive failures. -/
theorem c8_quarantine_at_five_consecutive_failures_witness :
    ({ thirdRateLimitFailureCtx with consecutive_failures := 5
       : DocumentContext }).quarantined = false ∧
    (should_quarantine_document
      { thirdRateLimitFailureCtx with consecutive_failures := 5 }
      ClaudeErrorType.TIMEOUT).1 = true :=
  ⟨rfl, c8_quarantine_at_five_consecutive_failures _ ClaudeErrorType.TIMEOUT rfl
    (by norm_num)⟩

/-- Claim C9: ignoring jitter (jitter factor 0), the backoff delay of
`calculate_exponential_backoff` is non-decreasing from attempt `n` to
`n+1` for every error kind and every (non-negative) fixed base delay and
rate-limit multiplier, and once it equals the cap `retry_delay_max` it
stays there. -/
theorem c9_backoff_monotone (cfg : Config) (b : ℚ)
    (error_type : ClaudeErrorType) (n : ℕ)
    (hb : 0 ≤ b) (hm : 0 ≤ cfg.rate_limit_backoff_multiplier) :
    calculate_exponential_backoff cfg 0 n error_type (some b) ≤
      calculate_exponential_backoff cfg 0 (n + 1) error_type (some b) ∧
    (calculate_exponential_backoff cfg 0 n error_type (some b) = cfg.retry_delay_max →
      calculate_exponential_backoff cfg 0 (n + 1) error_type (some b)
        = cfg.retry_delay_max) := by
  unfold calculate_exponential_backoff
  simp only [Option.getD_some, zero_mul, add_zero]
  set B := if error_type = .RATE_LIMIT then max b 2 * cfg.rate_limit_backoff_multiplier
    else if error_type = .NETWORK_ERROR then max b 1 else b with hB
  have hBnn : 0 ≤ B := by
    rw [hB]
    split
    · exact mul_nonneg (le_trans (by norm_num) (le_max_right b 2)) hm
    · split
      · exact le_trans (by norm_num) (le_max_right b 1)
      · exact hb
  have hpow : B * 2 ^ n ≤ B * 2 ^ (n + 1) := by
    apply mul_le_mul_of_nonneg_left _ hBnn
    exact pow_le_pow_right₀ (by norm_num) (Nat.le_succ n)
  constructor
  · exact min_le_min hpow le_rfl
  · intro h
    have hle : cfg.retry_delay_max ≤ B * 2 ^ n := min_eq_right_iff.mp h
    exact min_eq_right (le_trans hle hpow)

/-- Witness for C9 at the default configuration, base delay 1, kind
`RateLimit`, attempt 0. -/
theorem c9_backoff_monotone_witness :
    (0 : ℚ) ≤ 1 ∧ (0 : ℚ) ≤ ({} : Config).rate_limit_backoff_multiplier ∧
    (calculate_exponential_backoff {} 0 0 ClaudeErrorType.RATE_LIMIT (some 1) ≤
       calculate_exponential_backoff {} 0 1 ClaudeErrorType.RATE_LIMIT (some 1) ∧
     (calculate_exponential_backoff {} 0 0 ClaudeErrorType.RATE_LIMIT (some 1)
          = ({} : Config).retry_delay_max →
       calculate_exponential_backoff {} 0 1 ClaudeErrorType.RATE_LIMIT (some 1)
          = ({} : Config).retry_delay_max)) :=
  ⟨by norm_num, by norm_num [Config.rate_limit_backoff_multiplier],
   c9_backoff_monotone {} 1 ClaudeErrorType.RATE_LIMIT 0 (by norm_num)
     (by norm_num [Config.rate_limit_backoff_multiplier])⟩

/-- The success-probability formula as §4.6 of the spec states it,
for comparison with `calculate_success_probability`: identical except
that "any(failure_pattern) is non-retryable kind" tests for the recorded
kinds ServiceNotFound / AuthError / ContentTooLarge, i.e. for the
`ClaudeErrorType.value` strings that the retry loop actually stores in
`failure_pattern`. -/
def spec_success_probability (context : DocumentContext) : ℚ :=
  let probability := (0.8 : ℚ) - min ((context.retry_count : ℚ) * 0.15) 0.6
  let probability :=
    if context.failure_pattern ≠ [] then
      let probability :=
        if context.failure_pattern.dedup.length > 2 then probability * 0.7
        else probability
      if (context.failure_pattern.filter
            (fun e => e ∈ ["cli_not_found", "cli_auth_error", "content_too_large"])).length
          > 0 then
        probability * 0.3
      else probability
    else probability
  let probability := probability * max context.quality_score 0.2
  let probability :=
    if context.estimated_tokens > 50000 then probability * 0.8
    else if context.estimated_tokens > 20000 then probability * 0.9
    else probability
  max (min probability 1) 0

/-- A context exactly as the retry loop leaves it after one `AuthError`
failure: `failure_pattern` records the kind's `.value` string. -/
def oneAuthFailureCtx : DocumentContext :=
  { file_path := "c.pdf", filename := "c.pdf", size_mb := 1, page_count := 3,
    text_length := 4000, estimated_tokens := 1000, retry_count := 1,
    consecutive_failures := 1, quality_score := 1,
    failure_pattern := ["cli_auth_error"] }

/-- Claim C7: the code does NOT implement the spec's formula — the
non-retryable-kind factor 0.3 compares the stored `.value` strings
(e.g. "cli_auth_error") against the enum member names 'CLI_NOT_FOUND',
'CLI_AUTH_ERROR', 'CONTENT_TOO_LARGE', which never match, so on a context
whose failure pattern records an AuthError the code returns 0.65 where
the spec's formula gives 0.65 · 0.3 = 0.195. -/
theorem c7_success_probability_drops_non_retryable_factor :
    calculate_success_probability oneAuthFailureCtx = 13 / 20 ∧
    spec_success_probability oneAuthFailureCtx = 39 / 200 ∧
    calculate_success_probability oneAuthFailureCtx ≠
      spec_success_probability oneAuthFailureCtx := by
  have h1 : "cli_auth_error" ≠ "CLI_NOT_FOUND" := by decide
  have h2 : "cli_auth_error" ≠ "CLI_AUTH_ERROR" := by decide
  have h3 : "cli_auth_error" ≠ "CONTENT_TOO_LARGE" := by decide
  refine ⟨?_, ?_, ?_⟩
  · norm_num [calculate_success_probability, oneAuthFailureCtx, List.filter,
      min_def, max_def, h1, h2, h3]
  · norm_num [spec_success_probability, oneAuthFailureCtx, List.filter,
      min_def, max_def]
  · norm_num [calculate_success_probability, spec_success_probability,
      oneAuthFailureCtx, List.filter, min_def, max_def, h1, h2, h3]

/-- A populated context store entry whose last error kind was recorded
(as the retry loop does at line 1673). -/
def erroredCtx : DocumentContext :=
  { file_path := "doc1.pdf", filename := "doc1.pdf", size_mb := 2.5,
    page_count := 10, text_length := 20000, estimated_tokens := 5000,
    processing_status := .failed, retry_count := 2,
    last_error := some "rate limit", last_error_type := some .RATE_LIMIT,
    consecutive_failures := 2, failure_pattern := ["rate_limit", "rate_limit"],
    retry_delays := [4, 8.2], quality_score := 0.9, quality_metrics := [("density", 0.7)],
    processing_start := some 90, success_probability := 0.5 }

/-- The same entry with no recorded error kind. -/
def cleanCtx : DocumentContext := { erroredCtx with last_error_type := none }

/-- Claim C1: the save/load round-trip does NOT hold for every populated
Context Store.  `save_state` special-cases only `processing_status`;
`dataclasses.asdict` leaves a non-`None` `last_error_type` as a
`ClaudeErrorType` member, on which `json.dump` raises `TypeError`
(swallowed at line 376 after the state file was already truncated), so a
store containing any document with a recorded last error kind cannot be
restored.  With `last_error_type = None` the very same store round-trips
field-for-field, locating the failure precisely in the unconverted enum
field. -/
theorem c1_state_roundtrip_fails_on_recorded_error_kind :
    save_state [("doc1.pdf", erroredCtx)] [("alpha", ["doc1.pdf"])]
        ["batch_1_1_docs"] 100
      = .error "Object of type ClaudeErrorType is not JSON serializable" ∧
    (save_state [("doc1.pdf", cleanCtx)] [("alpha", ["doc1.pdf"])]
        ["batch_1_1_docs"] 100).bind load_state
      = .ok ([("doc1.pdf", cleanCtx)], [("alpha", ["doc1.pdf"])],
             ["batch_1_1_docs"]) :=
  ⟨rfl, rfl⟩

/-- Oracles for a document whose every Analysis Service invocation raises
an authentication error. -/
def authFailOracles : DocOracles :=
  { extract := .ok "some extracted text", filter_verdict := (false, "ok")
    service := fun _ => .raise "auth failed", jitter := fun _ => 0.2 }

/-- A fresh pending document context. -/
def freshCtx : DocumentContext :=
  { file_path := "d.pdf", filename := "d.pdf", size_mb := 1, page_count := 1,
    text_length := 400, estimated_tokens := 100, quality_score := 0.9 }

/-- Claim C2, counterexample: a document whose first attempt fails with
kind `AuthError` does NOT end `Failed` — the quarantine check (which
fires immediately on `CLI_AUTH_ERROR`) runs before the non-retryable
check, so the document is quarantined with status `Skipped` (after a
single Service invocation and no retry). -/
theorem c2_counterexample :
    (process_document_with_retry {} authFailOracles 50 freshCtx none).context.processing_status
        = ProcessingStatus.skipped ∧
    (process_document_with_retry {} authFailOracles 50 freshCtx none).context.processing_status
        ≠ ProcessingStatus.failed ∧
    (process_document_with_retry {} authFailOracles 50 freshCtx none).invocations = 1 := by
  have h : (process_document_with_retry {} authFailOracles 50 freshCtx
      none).context.processing_status = ProcessingStatus.skipped := rfl
  exact ⟨h, by rw [h]; decide, rfl⟩

/-- Claim C2 (amended): a not-already-quarantined document whose first
processing attempt fails with error kind `AuthError` terminates
immediately — no retry, exactly one Analysis Service invocation — but
with the document quarantined ("Critical system error") and final status
`Skipped`, not `Failed`: the quarantine check runs before the
non-retryable-error check. -/
theorem c2_auth_error_quarantines_immediately
    (cfg : Config) (orc : DocOracles) (now : ℚ) (context : DocumentContext)
    (progress : Option BatchProgress) (text msg : String)
    (hext : orc.extract = .ok text)
    (htext : text.data.all Char.isWhitespace = false)
    (hfilt : orc.filter_verdict.1 = false)
    (hq : context.quarantined = false)
    (hsvc : orc.service 0 = .raise msg)
    (hkind : (categorize_claude_error msg 1).error_type = .CLI_AUTH_ERROR) :
    (process_document_with_retry cfg orc now context progress).success = false ∧
    (process_document_with_retry cfg orc now context progress).context.processing_status
        = ProcessingStatus.skipped ∧
    (process_document_with_retry cfg orc now context progress).context.quarantined
        = true ∧
    (process_document_with_retry cfg orc now context progress).context.retry_count = 0 ∧
    (process_document_with_retry cfg orc now context progress).invocations = 1 := by
  simp only [process_document_with_retry, hext, htext, Bool.false_eq_true, if_false,
    hfilt, retry_loop, retry_attempt_step, hsvc, hkind, failure_update,
    should_quarantine_document, quarantine_document, hq, List.mem_cons,
    List.mem_singleton]
  simp

/-- Witness for C2 at concrete oracles and a concrete fresh context. -/
theorem c2_auth_error_quarantines_immediately_witness :
    authFailOracles.extract = .ok "some extracted text" ∧
    freshCtx.quarantined = false ∧
    (categorize_claude_error "auth failed" 1).error_type = .CLI_AUTH_ERROR ∧
    ((process_document_with_retry {} authFailOracles 50 freshCtx none).success = false ∧
     (process_document_with_retry {} authFailOracles 50 freshCtx none).context.processing_status
        = ProcessingStatus.skipped ∧
     (process_document_with_retry {} authFailOracles 50 freshCtx none).context.quarantined
        = true ∧
     (process_document_with_retry {} authFailOracles 50 freshCtx none).context.retry_count
        = 0 ∧
     (process_document_with_retry {} authFailOracles 50 freshCtx none).invocations = 1) :=
  ⟨rfl, rfl, rfl,
   c2_auth_error_quarantines_immediately {} authFailOracles 50 freshCtx none
     "some extracted text" "auth failed" rfl rfl rfl rfl rfl rfl⟩

/-- A one-document pending store wrapped in an orchestrator state. -/
def pendingState : IntegrationState :=
  { store := [("d.pdf", freshCtx)], progress := some {}
    processed_batches := [], invocations := 0 }

/-- Claim C6, counterexample: with the health probe unhealthy and
`skip_failed` configured, `process_batch` returns `(0, len(batch))`
without invoking the Analysis Service, but it does NOT set any document's
status to `Skipped` — the early return leaves every context untouched
(here: still `Pending`). -/
theorem c6_counterexample :
    (process_batch { skip_failed := true } (false, "probe failed")
        (fun _ => authFailOracles) (fun _ => []) 50 pendingState ["d.pdf"] 1).2.store
      = [("d.pdf", freshCtx)] ∧
    freshCtx.processing_status = ProcessingStatus.pending ∧
    freshCtx.processing_status ≠ ProcessingStatus.skipped ∧
    (process_batch { skip_failed := true } (false, "probe failed")
        (fun _ => authFailOracles) (fun _ => []) 50 pendingState ["d.pdf"] 1).2.invocations
      = 0 ∧
    (process_batch { skip_failed := true } (false, "probe failed")
        (fun _ => authFailOracles) (fun _ => []) 50 pendingState ["d.pdf"] 1).1
      = (0, 1) :=
  ⟨rfl, rfl, by decide, rfl, rfl⟩

/-- Claim C6 (amended): for every batch, if the pre-batch health check
reports unhealthy and `skip_failed` is configured, `process_batch`
performs zero Analysis Service invocations and returns
`(0, len(batch))` counting every document as failed, but changes no
document's status: the context store is returned untouched (the
documents are not marked `Skipped`). -/
theorem c6_unhealthy_skip_failed_skips_batch
    (cfg : Config) (health : Bool × String) (orcFor : String → DocOracles)
    (related : String → List String) (now : ℚ) (st : IntegrationState)
    (batch : List String) (batch_number : ℕ)
    (hhc : cfg.health_check_enabled = true)
    (hsf : cfg.skip_failed = true)
    (hun : health.1 = false) :
    (process_batch cfg health orcFor related now st batch batch_number).1
        = (0, batch.length) ∧
    (process_batch cfg health orcFor related now st batch batch_number).2.store
        = st.store ∧
    (process_batch cfg health orcFor related now st batch batch_number).2.invocations
        = st.invocations := by
  simp [process_batch, hhc, hsf, hun]

/-- Witness for C6 at a concrete unhealthy probe and one-document batch. -/
theorem c6_unhealthy_skip_failed_skips_batch_witness :
    ({ skip_failed := true : Config }).health_check_enabled = true ∧
    ({ skip_failed := true : Config }).skip_failed = true ∧
    ((false, "probe failed") : Bool × String).1 = false ∧
    ((process_batch { skip_failed := true } (false, "probe failed")
        (fun _ => authFailOracles) (fun _ => []) 50 pendingState ["d.pdf"] 1).1
        = (0, (["d.pdf"] : List String).length) ∧
     (process_batch { skip_failed := true } (false, "probe failed")
        (fun _ => authFailOracles) (fun _ => []) 50 pendingState ["d.pdf"] 1).2.store
        = pendingState.store ∧
     (process_batch { skip_failed := true } (false, "probe failed")
        (fun _ => authFailOracles) (fun _ => []) 50 pendingState ["d.pdf"] 1).2.invocations
        = pendingState.invocations) :=
  ⟨rfl, rfl, rfl,
   c6_unhealthy_skip_failed_skips_batch { skip_failed := true } (false, "probe failed")
     (fun _ => authFailOracles) (fun _ => []) 50 pendingState ["d.pdf"] 1 rfl rfl rfl⟩

/-- Token total distributes over appending a document to the open batch. -/
theorem batch_tokens_append (l : List (String × DocumentContext))
    (d : String × DocumentContext) :
    batch_tokens (l ++ [d]) = batch_tokens l + d.2.estimated_tokens := by
  simp [batch_tokens]

/-- Flattening the packed batches recovers the closed batches, the open
batch and the documents still to pack, in order: the greedy packing
neither drops nor duplicates a document. -/
theorem pack_batches_flatten (capF tokF : DocumentContext → ℕ) :
    ∀ (docs : List (String × DocumentContext)) batches current current_tokens,
    (pack_batches capF tokF docs batches current current_tokens).flatten
      = batches.flatten ++ current ++ docs := by
  intro docs
  induction docs with
  | nil =>
      intro batches current tok
      simp only [pack_batches]
      split
      · simp [*]
      · simp
  | cons d rest ih =>
      intro batches current tok
      simp only [pack_batches]
      split
      · rw [ih]; simp
      · rw [ih]; simp

/-- Every batch closed by the greedy packing is non-empty and respects
the document-count cap `c` (as `max c 1`: a document is appended to an
empty open batch even when the cap is already met). -/
theorem pack_batches_length_le (capF tokF : DocumentContext → ℕ) (c : ℕ) :
    ∀ (docs : List (String × DocumentContext)) batches current current_tokens,
    (∀ d ∈ docs, capF d.2 = c) →
    (∀ b ∈ batches, b ≠ [] ∧ b.length ≤ max c 1) →
    current.length ≤ max c 1 →
    ∀ b ∈ pack_batches capF tokF docs batches current current_tokens,
      b ≠ [] ∧ b.length ≤ max c 1 := by
  intro docs
  induction docs with
  | nil =>
      intro batches current tok _ hbat hcur b hb
      simp only [pack_batches] at hb
      split at hb
      · exact hbat b hb
      · rcases List.mem_append.mp hb with h | h
        · exact hbat b h
        · rcases List.mem_singleton.mp h with rfl
          exact ⟨by assumption, hcur⟩
  | cons d rest ih =>
      intro batches current tok hdocs hbat hcur b hb
      have hcap : capF d.2 = c := hdocs d (List.mem_cons_self d rest)
      have hrest : ∀ e ∈ rest, capF e.2 = c :=
        fun e he => hdocs e (List.mem_cons_of_mem d he)
      simp only [pack_batches] at hb
      split at hb
      · rename_i hcond
        refine ih (batches ++ [current]) [d] d.2.estimated_tokens hrest ?_ ?_ b hb
        · intro b' hb'
          rcases List.mem_append.mp hb' with h | h
          · exact hbat b' h
          · rcases List.mem_singleton.mp h with rfl
            exact ⟨hcond.2, hcur⟩
        · simp
      · rename_i hcond
        by_cases hc : current = []
        · refine ih batches (current ++ [d]) _ hrest hbat ?_ b hb
          simp only [hc, List.nil_append, List.length_singleton]
          simp
        · have hnx : ¬(current.length ≥ capF d.2 ∨
              tok + d.2.estimated_tokens > tokF d.2) :=
            fun hw => hcond ⟨hw, hc⟩
          have hlen : current.length < capF d.2 :=
            Nat.lt_of_not_le (not_or.mp hnx).1
          refine ih batches (current ++ [d]) _ hrest hbat ?_ b hb
          rw [hcap] at hlen
          have : current.length + 1 ≤ c := by omega
          simpa using le_trans this (Nat.le_max_left c 1)

/-- Every batch of at least two documents closed by the greedy packing
respects the token budget `L` (a single document may exceed it alone:
the packing appends it to the empty open batch regardless). -/
theorem pack_batches_tokens_le (capF tokF : DocumentContext → ℕ) (L : ℕ) :
    ∀ (docs : List (String × DocumentContext)) batches current current_tokens,
    (∀ d ∈ docs, tokF d.2 = L) →
    (∀ b ∈ batches, 2 ≤ b.length → batch_tokens b ≤ L) →
    (2 ≤ current.length → batch_tokens current ≤ L) →
    current_tokens = batch_tokens current →
    ∀ b ∈ pack_batches capF tokF docs batches current current_tokens,
      2 ≤ b.length → batch_tokens b ≤ L := by
  intro docs
  induction docs with
  | nil =>
      intro batches current tok _ hbat hcur htok b hb
      simp only [pack_batches] at hb
      split at hb
      · exact hbat b hb
      · rcases List.mem_append.mp hb with h | h
        · exact hbat b h
        · rcases List.mem_singleton.mp h with rfl
          exact hcur
  | cons d rest ih =>
      intro batches current tok hdocs hbat hcur htok b hb
      have hlim : tokF d.2 = L := hdocs d (List.mem_cons_self d rest)
      have hrest : ∀ e ∈ rest, tokF e.2 = L :=
        fun e he => hdocs e (List.mem_cons_of_mem d he)
      simp only [pack_batches] at hb
      split at hb
      · refine ih (batches ++ [current]) [d] d.2.estimated_tokens hrest ?_ ?_ ?_ b hb
        · intro b' hb'
          rcases List.mem_append.mp hb' with h | h
          · exact hbat b' h
          · rcases List.mem_singleton.mp h with rfl
            exact hcur
        · intro h2; simp at h2
        · simp [batch_tokens]
      · rename_i hcond
        by_cases hc : current = []
        · refine ih batches (current ++ [d]) _ hrest hbat ?_ ?_ b hb
          · intro h2; simp [hc] at h2
          · simp [hc, batch_tokens] at htok ⊢
            omega
        · have hnx : ¬(current.length ≥ capF d.2 ∨
              tok + d.2.estimated_tokens > tokF d.2) :=
            fun hw => hcond ⟨hw, hc⟩
          have hfit : tok + d.2.estimated_tokens ≤ L := by
            rw [← hlim]
            exact Nat.le_of_not_lt (not_or.mp hnx).2
          refine ih batches (current ++ [d]) _ hrest hbat ?_ ?_ b hb
          · intro _
            rw [batch_tokens_append, ← htok]
            exact hfit
          · rw [batch_tokens_append, ← htok]

/-- The batch-budget property exactly as claimed: every produced batch
respects its tier's token budget (medium/small: the full per-request
budget, large: half of it, retried: the document's tokens plus the fixed
margin) and its tier's count cap (small ≤ 10, medium ≤ `batch_size`,
large ≤ 2, retried exactly 1). -/
def batch_budgets_as_claimed (cfg : Config) (store : ContextStore) : Prop :=
  let g := group_documents_by_complexity store
  (∀ b ∈ create_batches_for_group cfg "small" g.small,
      batch_tokens b ≤ cfg.max_tokens_per_request ∧ b.length ≤ 10) ∧
  (∀ b ∈ create_batches_for_group cfg "medium" g.medium,
      batch_tokens b ≤ cfg.max_tokens_per_request ∧ b.length ≤ cfg.batch_size) ∧
  (∀ b ∈ create_batches_for_group cfg "large" g.large,
      batch_tokens b ≤ cfg.max_tokens_per_request / 2 ∧ b.length ≤ 2) ∧
  (∀ b ∈ create_batches_for_group cfg "failed" g.failed,
      (∀ d ∈ b, batch_tokens b ≤ d.2.estimated_tokens + 1000) ∧ b.length = 1)

/-- A pending medium-tier document whose own token count exceeds the
default per-request budget of 8000. -/
def oversizedMediumCtx : DocumentContext :=
  { file_path := "m.pdf", filename := "m.pdf", size_mb := 3, page_count := 40,
    text_length := 40000, estimated_tokens := 10000 }

/-- Claim C4, counterexample: the token budget does NOT hold for every
produced batch — a single pending medium document of 10000 estimated
tokens is packed alone into a batch whose token total 10000 exceeds the
full per-request budget 8000 (the packing closes the open batch only
when it is non-empty, so an oversized document is appended regardless). -/
theorem c4_counterexample :
    ¬ batch_budgets_as_claimed {} [("m.pdf", oversizedMediumCtx)] ∧
    create_batches {} [("m.pdf", oversizedMediumCtx)] = [["m.pdf"]] ∧
    oversizedMediumCtx.estimated_tokens = 10000 ∧
    ({} : Config).max_tokens_per_request = 8000 := by
  refine ⟨?_, rfl, rfl, rfl⟩
  intro hclaim
  have h := hclaim.2.1 [("m.pdf", oversizedMediumCtx)] (by decide)
  exact absurd h.1 (by decide)

/-- Sorting by token count permutes the documents. -/
theorem mem_sort_by_tokens {d : String × DocumentContext}
    {docs : List (String × DocumentContext)} :
    d ∈ sort_by_tokens docs ↔ d ∈ docs :=
  (List.perm_insertionSort _ _).mem_iff

/-- Claim C4 (amended): for every batch produced by the planner
(`batch_size ≥ 1`), the tier count caps hold as claimed (small ≤ 10,
medium ≤ `batch_size`, large ≤ 2, retried exactly 1 with its token
budget `tokens + 1000`), and the tier token budget holds for every batch
of two or more documents; a batch may exceed the token budget only by
being a single document whose own estimated token count exceeds the
budget by itself. -/
theorem c4_batch_budgets (cfg : Config) (store : ContextStore)
    (hbs : 1 ≤ cfg.batch_size) :
    (∀ b ∈ create_batches_for_group cfg "small"
        (group_documents_by_complexity store).small,
      b.length ≤ 10 ∧ (batch_tokens b ≤ cfg.max_tokens_per_request ∨ b.length = 1)) ∧
    (∀ b ∈ create_batches_for_group cfg "medium"
        (group_documents_by_complexity store).medium,
      b.length ≤ cfg.batch_size ∧
        (batch_tokens b ≤ cfg.max_tokens_per_request ∨ b.length = 1)) ∧
    (∀ b ∈ create_batches_for_group cfg "large"
        (group_documents_by_complexity store).large,
      b.length ≤ 2 ∧
        (batch_tokens b ≤ cfg.max_tokens_per_request / 2 ∨ b.length = 1)) ∧
    (∀ b ∈ create_batches_for_group cfg "failed"
        (group_documents_by_complexity store).failed,
      b.length = 1 ∧ ∀ d ∈ b, batch_tokens b ≤ d.2.estimated_tokens + 1000) := by
  have hsmall_tok : ∀ d ∈ sort_by_tokens (group_documents_by_complexity store).small,
      d.2.estimated_tokens < 5000 := by
    intro d hd
    have hd2 := mem_sort_by_tokens.mp hd
    simp only [group_documents_by_complexity, List.mem_filter] at hd2
    exact (of_decide_eq_true hd2.2).2.2
  have hmed_tok : ∀ d ∈ sort_by_tokens (group_documents_by_complexity store).medium,
      ¬ d.2.estimated_tokens < 5000 ∧ d.2.estimated_tokens < 20000 := by
    intro d hd
    have hd2 := mem_sort_by_tokens.mp hd
    simp only [group_documents_by_complexity, List.mem_filter] at hd2
    exact ⟨(of_decide_eq_true hd2.2).2.2.1, (of_decide_eq_true hd2.2).2.2.2⟩
  have hlarge_tok : ∀ d ∈ sort_by_tokens (group_documents_by_complexity store).large,
      ¬ d.2.estimated_tokens < 20000 := by
    intro d hd
    have hd2 := mem_sort_by_tokens.mp hd
    simp only [group_documents_by_complexity, List.mem_filter] at hd2
    exact (of_decide_eq_true hd2.2).2.2
  refine ⟨?_, ?_, ?_, ?_⟩
  · -- small tier
    have hlen := pack_batches_length_le (batch_count_cap cfg "small")
      (batch_token_limit cfg "small") (min (cfg.batch_size * 2) 10)
      (sort_by_tokens (group_documents_by_complexity store).small) [] [] 0
      (by
        intro d hd
        have h5 := hsmall_tok d hd
        simp [batch_count_cap, calculate_adaptive_batch_size, h5])
      (by simp) (by simp)
    have htok := pack_batches_tokens_le (batch_count_cap cfg "small")
      (batch_token_limit cfg "small") cfg.max_tokens_per_request
      (sort_by_tokens (group_documents_by_complexity store).small) [] [] 0
      (by intro d _; simp [batch_token_limit])
      (by simp) (by simp) (by simp [batch_tokens])
    intro b hb
    obtain ⟨hne, hle⟩ := hlen b hb
    refine ⟨le_trans hle (by omega), ?_⟩
    rcases Nat.lt_or_ge b.length 2 with h2 | h2
    · right
      have := List.length_pos.mpr hne
      omega
    · exact Or.inl (htok b hb h2)
  · -- medium tier
    have hlen := pack_batches_length_le (batch_count_cap cfg "medium")
      (batch_token_limit cfg "medium") (min cfg.batch_size 5)
      (sort_by_tokens (group_documents_by_complexity store).medium) [] [] 0
      (by
        intro d hd
        obtain ⟨h5, h20⟩ := hmed_tok d hd
        simp [batch_count_cap, calculate_adaptive_batch_size, h5, h20])
      (by simp) (by simp)
    have htok := pack_batches_tokens_le (batch_count_cap cfg "medium")
      (batch_token_limit cfg "medium") cfg.max_tokens_per_request
      (sort_by_tokens (group_documents_by_complexity store).medium) [] [] 0
      (by intro d _; simp [batch_token_limit])
      (by simp) (by simp) (by simp [batch_tokens])
    intro b hb
    obtain ⟨hne, hle⟩ := hlen b hb
    refine ⟨le_trans hle (by omega), ?_⟩
    rcases Nat.lt_or_ge b.length 2 with h2 | h2
    · right
      have := List.length_pos.mpr hne
      omega
    · exact Or.inl (htok b hb h2)
  · -- large tier
    have hlen := pack_batches_length_le (batch_count_cap cfg "large")
      (batch_token_limit cfg "large") (min (cfg.batch_size / 2) 2)
      (sort_by_tokens (group_documents_by_complexity store).large) [] [] 0
      (by
        intro d hd
        have h20 := hlarge_tok d hd
        have h5 : ¬ d.2.estimated_tokens < 5000 := by omega
        simp [batch_count_cap, calculate_adaptive_batch_size, h5, h20])
      (by simp) (by simp)
    have htok := pack_batches_tokens_le (batch_count_cap cfg "large")
      (batch_token_limit cfg "large") (cfg.max_tokens_per_request / 2)
      (sort_by_tokens (group_documents_by_complexity store).large) [] [] 0
      (by intro d _; simp [batch_token_limit])
      (by simp) (by simp) (by simp [batch_tokens])
    intro b hb
    obtain ⟨hne, hle⟩ := hlen b hb
    refine ⟨le_trans hle (by omega), ?_⟩
    rcases Nat.lt_or_ge b.length 2 with h2 | h2
    · right
      have := List.length_pos.mpr hne
      omega
    · exact Or.inl (htok b hb h2)
  · -- failed (retried) tier
    have hlen := pack_batches_length_le (batch_count_cap cfg "failed")
      (batch_token_limit cfg "failed") 1
      (sort_by_tokens (group_documents_by_complexity store).failed) [] [] 0
      (by intro d _; simp [batch_count_cap])
      (by simp) (by simp)
    intro b hb
    obtain ⟨hne, hle⟩ := hlen b hb
    have hb1 : b.length = 1 := by
      have := List.length_pos.mpr hne
      simp at hle
      omega
    refine ⟨hb1, ?_⟩
    obtain ⟨d0, rfl⟩ := List.length_eq_one.mp hb1
    intro d hd
    rcases List.mem_singleton.mp hd with rfl
    simp [batch_tokens]

/-- Witness for C4 at the default configuration and the one-document
oversized store. -/
theorem c4_batch_budgets_witness :
    1 ≤ ({} : Config).batch_size ∧
    ((∀ b ∈ create_batches_for_group {} "small"
        (group_documents_by_complexity [("m.pdf", oversizedMediumCtx)]).small,
      b.length ≤ 10 ∧
        (batch_tokens b ≤ ({} : Config).max_tokens_per_request ∨ b.length = 1)) ∧
     (∀ b ∈ create_batches_for_group {} "medium"
        (group_documents_by_complexity [("m.pdf", oversizedMediumCtx)]).medium,
      b.length ≤ ({} : Config).batch_size ∧
        (batch_tokens b ≤ ({} : Config).max_tokens_per_request ∨ b.length = 1)) ∧
     (∀ b ∈ create_batches_for_group {} "large"
        (group_documents_by_complexity [("m.pdf", oversizedMediumCtx)]).large,
      b.length ≤ 2 ∧
        (batch_tokens b ≤ ({} : Config).max_tokens_per_request / 2 ∨ b.length = 1)) ∧
     (∀ b ∈ create_batches_for_group {} "failed"
        (group_documents_by_complexity [("m.pdf", oversizedMediumCtx)]).failed,
      b.length = 1 ∧ ∀ d ∈ b, batch_tokens b ≤ d.2.estimated_tokens + 1000)) :=
  ⟨by decide, c4_batch_budgets {} [("m.pdf", oversizedMediumCtx)] (by decide)⟩

/-- Occurrences with a fixed key in an association list with no duplicate
keys: exactly the indicator of the predicate at that key's entry. -/
theorem countP_assoc_unique (p : String) (c : DocumentContext)
    (Q : DocumentContext → Bool) :
    ∀ (store : ContextStore), (store.map Prod.fst).Nodup → (p, c) ∈ store →
    (store.countP fun e => (e.1 == p) && Q e.2) = if Q c then 1 else 0 := by
  intro store
  induction store with
  | nil => intro _ hmem; cases hmem
  | cons a rest ih =>
      intro hnd hmem
      simp only [List.map_cons, List.nodup_cons] at hnd
      rcases List.mem_cons.mp hmem with heq | hmem'
      · subst heq
        have hzero : (rest.countP fun e => (e.1 == p) && Q e.2) = 0 := by
          rw [List.countP_eq_zero]
          intro e he
          have hne : e.1 ≠ p := by
            intro h
            apply hnd.1
            show p ∈ List.map Prod.fst rest
            rw [← h]
            exact List.mem_map_of_mem Prod.fst he
          simp [hne]
        rw [List.countP_cons, hzero]
        simp
      · have hne : a.1 ≠ p := by
          intro h
          apply hnd.1
          rw [h]
          exact List.mem_map_of_mem Prod.fst hmem'
        have hbeq : (a.1 == p) = false := beq_eq_false_iff_ne.mpr hne
        rw [List.countP_cons, hbeq]
        simp only [Bool.false_and, Bool.false_eq_true, if_false, add_zero]
        exact ih hnd.2 hmem'

/-- The four complexity-group predicates partition the pending documents:
summing key-occurrences over the four groups counts the pending entries
with that key. -/
theorem countP_groups_partition (store : ContextStore)
    (K : String × DocumentContext → Bool) :
    (store.countP fun e => K e && decide (e.2.processing_status = .pending ∧
        ¬ e.2.retry_count > 0 ∧ e.2.estimated_tokens < 5000)) +
    (store.countP fun e => K e && decide (e.2.processing_status = .pending ∧
        ¬ e.2.retry_count > 0 ∧ ¬ e.2.estimated_tokens < 5000 ∧
        e.2.estimated_tokens < 20000)) +
    (store.countP fun e => K e && decide (e.2.processing_status = .pending ∧
        ¬ e.2.retry_count > 0 ∧ ¬ e.2.estimated_tokens < 20000)) +
    (store.countP fun e => K e && decide (e.2.processing_status = .pending ∧
        e.2.retry_count > 0)) =
    store.countP fun e => K e && decide (e.2.processing_status = .pending) := by
  induction store with
  | nil => simp
  | cons a rest ih =>
      simp only [List.countP_cons]
      by_cases hK : K a = true <;>
        by_cases hs : a.2.processing_status = .pending <;>
        by_cases hr : a.2.retry_count > 0 <;>
        by_cases h5 : a.2.estimated_tokens < 5000 <;>
        by_cases h20 : a.2.estimated_tokens < 20000 <;>
        simp [hK, hs, hr, h5, h20] at ih ⊢ <;>
        omega

/-- Specialization of the partition identity to the key predicate. -/
theorem countP_groups_partition_key (store : ContextStore) (p : String) :
    (store.countP fun e => (e.1 == p) && decide (e.2.processing_status = .pending ∧
        ¬ e.2.retry_count > 0 ∧ e.2.estimated_tokens < 5000)) +
    (store.countP fun e => (e.1 == p) && decide (e.2.processing_status = .pending ∧
        ¬ e.2.retry_count > 0 ∧ ¬ e.2.estimated_tokens < 5000 ∧
        e.2.estimated_tokens < 20000)) +
    (store.countP fun e => (e.1 == p) && decide (e.2.processing_status = .pending ∧
        ¬ e.2.retry_count > 0 ∧ ¬ e.2.estimated_tokens < 20000)) +
    (store.countP fun e => (e.1 == p) && decide (e.2.processing_status = .pending ∧
        e.2.retry_count > 0)) =
    store.countP fun e => (e.1 == p) && decide (e.2.processing_status = .pending) :=
  countP_groups_partition store (fun e => e.1 == p)

/-- Packing a group then flattening preserves key-occurrences. -/
theorem countP_create_batches_for_group (cfg : Config) (level : String)
    (docs : List (String × DocumentContext)) (p : String) :
    ((create_batches_for_group cfg level docs).flatten.countP fun e => e.1 == p)
      = docs.countP fun e => e.1 == p := by
  unfold create_batches_for_group
  rw [pack_batches_flatten]
  simp only [List.flatten_nil, List.nil_append]
  exact (List.perm_insertionSort _ docs).countP_eq _

/-- How often a document path occurs across all batches emitted by
`create_batches`: once if its context is `Pending`, never otherwise
(for a store with unique paths containing `(p, c)`). -/
theorem create_batches_count (cfg : Config) (store : ContextStore)
    (p : String) (c : DocumentContext)
    (hnd : (store.map Prod.fst).Nodup) (hmem : (p, c) ∈ store) :
    ((create_batches cfg store).flatten).count p
      = if c.processing_status = .pending then 1 else 0 := by
  have key : ∀ (B : List (List (String × DocumentContext))),
      ((B.map (List.map Prod.fst)).flatten).count p
        = B.flatten.countP (fun e => e.1 == p) := by
    intro B
    rw [← List.map_flatten, List.count_eq_countP, List.countP_map]
    rfl
  have huniq := countP_assoc_unique p c
    (fun ctx => decide (ctx.processing_status = .pending)) store hnd hmem
  unfold create_batches create_batches_ctx
  by_cases had : cfg.adaptive_batching
  · simp only [had, not_true_eq_false, if_false, key, List.flatten_append,
      List.countP_append]
    rw [countP_create_batches_for_group, countP_create_batches_for_group,
      countP_create_batches_for_group, countP_create_batches_for_group]
    simp only [group_documents_by_complexity, List.countP_filter]
    rw [countP_groups_partition_key, huniq]
    by_cases hp : c.processing_status = .pending <;> simp [hp]
  · have hf : cfg.adaptive_batching = false := by simpa using had
    simp only [hf, Bool.false_eq_true, not_false_eq_true, if_true, key]
    unfold create_simple_batches_ctx sort_by_tokens
    rw [pack_batches_flatten]
    simp only [List.flatten_nil, List.nil_append]
    rw [(List.perm_insertionSort _ _).countP_eq, List.countP_filter, huniq]
    by_cases hp : c.processing_status = .pending <;> simp [hp]

/-- Claim C5: for a context store with unique paths, every document whose
status is `Pending` (in particular every pending non-quarantined one)
occurs exactly once across all batches emitted by `create_batches`, and a
document with any other status occurs in no batch. -/
theorem c5_pending_documents_batched_exactly_once
    (cfg : Config) (store : ContextStore) (p : String) (c : DocumentContext)
    (hnd : (store.map Prod.fst).Nodup) (hmem : (p, c) ∈ store) :
    (c.processing_status = .pending → c.quarantined = false →
      ((create_batches cfg store).flatten).count p = 1) ∧
    (c.processing_status ≠ .pending →
      ((create_batches cfg store).flatten).count p = 0) := by
  have h := create_batches_count cfg store p c hnd hmem
  constructor
  · intro hp _
    rw [h, if_pos hp]
  · intro hp
    rw [h, if_neg hp]

/-- Witness for C5 at a concrete one-document pending store. -/
theorem c5_pending_documents_batched_exactly_once_witness :
    (([("d.pdf", freshCtx)] : ContextStore).map Prod.fst).Nodup ∧
    (("d.pdf", freshCtx) ∈ ([("d.pdf", freshCtx)] : ContextStore)) ∧
    ((freshCtx.processing_status = .pending → freshCtx.quarantined = false →
        ((create_batches {} [("d.pdf", freshCtx)]).flatten).count "d.pdf" = 1) ∧
     (freshCtx.processing_status ≠ .pending →
        ((create_batches {} [("d.pdf", freshCtx)]).flatten).count "d.pdf" = 0)) :=
  ⟨by decide, List.mem_singleton.mpr rfl,
   c5_pending_documents_batched_exactly_once {} [("d.pdf", freshCtx)] "d.pdf" freshCtx
     (by decide) (List.mem_singleton.mpr rfl)⟩

/-- Inversion: the only classification rule producing `RATE_LIMIT` also
fixes the wait hint and retryability. -/
theorem categorize_rate_limit_inv (m : String)
    (h : (categorize_claude_error m 1).error_type = .RATE_LIMIT) :
    categorize_claude_error m 1 =
      { error_type := .RATE_LIMIT, message := m, retry_after := some 60,
        is_retryable := true } := by
  unfold categorize_claude_error at h ⊢
  dsimp only at h ⊢
  split_ifs at h ⊢
  all_goals simp_all

/-- After two recorded rate-limit failures, a third rate-limit failure
triggers quarantine: the last three failure-pattern entries all read
`"rate_limit"` (or the consecutive-failure threshold fires first). -/
theorem sq_after_three_rate_limits (cfg : Config) (ctx : DocumentContext)
    (attempt : ℕ) (m : String)
    (hq : ctx.quarantined = false)
    (hfp : ctx.failure_pattern = ["rate_limit", "rate_limit"]) :
    (should_quarantine_document
        (failure_update cfg ctx attempt
          { error_type := .RATE_LIMIT, message := m, retry_after := some 60,
            is_retryable := true } m)
        .RATE_LIMIT).1 = true := by
  simp only [failure_update, should_quarantine_document, hfp, hq,
    ClaudeErrorType.value]
  norm_num
  split_ifs <;> simp_all

/-- One retry-loop iteration under a rate-limit failure, for an attempt
below `max_retries`: either the iteration returns early with the document
`Skipped` (quarantine or the skip strategy; never `Completed`, never a
retry), or it proceeds to the next attempt having incremented
`consecutive_failures`, appended `"rate_limit"` to the failure pattern
and left `quarantined` untouched. -/
theorem retry_attempt_step_rate_limit (cfg : Config) (orc : DocOracles)
    (now : ℚ) (attempt : ℕ) (ctx : DocumentContext)
    (prog : Option BatchProgress) (inv : ℕ) (m : String)
    (hsvc : orc.service attempt = .raise m)
    (hk : categorize_claude_error m 1 =
      { error_type := .RATE_LIMIT, message := m, retry_after := some 60,
        is_retryable := true })
    (hatt : attempt < cfg.max_retries) :
    (∃ r : RunOutcome,
        retry_attempt_step cfg orc now attempt ctx prog inv = .done r ∧
        r.success = false ∧ r.context.processing_status = .skipped ∧
        r.context.retry_count = attempt ∧ r.invocations = inv + 1) ∨
    (∃ ctx' prog',
        retry_attempt_step cfg orc now attempt ctx prog inv
          = .next ctx' prog' (inv + 1) ∧
        (should_quarantine_document
            (failure_update cfg ctx attempt
              { error_type := .RATE_LIMIT, message := m, retry_after := some 60,
                is_retryable := true } m)
            .RATE_LIMIT).1 = false ∧
        ctx'.quarantined = ctx.quarantined ∧
        ctx'.consecutive_failures = ctx.consecutive_failures + 1 ∧
        ctx'.failure_pattern =
          (if (ctx.failure_pattern ++ ["rate_limit"]).length > 10
           then (ctx.failure_pattern ++ ["rate_limit"]).tail
           else ctx.failure_pattern ++ ["rate_limit"])) := by
  unfold retry_attempt_step
  simp only [hsvc, hk]
  set fu := failure_update cfg ctx attempt
    { error_type := .RATE_LIMIT, message := m, retry_after := some 60,
      is_retryable := true } m with hfu
  set qc := should_quarantine_document fu .RATE_LIMIT with hqc
  by_cases hq1 : qc.1 = true
  · left
    refine ⟨{ success := false, message := "Document quarantined: " ++ qc.2,
              context := quarantine_document fu qc.2 now,
              progress := prog, invocations := inv + 1 }, ?_, rfl, ?_, ?_, rfl⟩
    · exact if_pos hq1
    · simp [quarantine_document]
    · simp [quarantine_document, hfu, failure_update]
  · by_cases hsk : fu.retry_strategy = "skip"
    · left
      refine ⟨{ success := false,
                message := "Skipped due to low success probability: " ++ m,
                context :=
                  { fu with
                    processing_status := ProcessingStatus.skipped
                    processing_end := some now },
                progress := prog, invocations := inv + 1 }, ?_, rfl, rfl, ?_, rfl⟩
      · rw [if_neg hq1]
        rw [if_neg (by simp)]
        exact if_pos hsk
      · rfl
    · right
      exact ⟨_, _,
        by rw [if_neg hq1, if_neg (by simp), if_neg hsk, if_neg (by simp),
             if_pos hatt],
        by simpa using hq1,
        by simp [hfu, failure_update],
        by simp [hfu, failure_update],
        by simp [hfu, failure_update, ClaudeErrorType.value]⟩

/-- Unfolding of one retry-loop iteration. -/
theorem retry_loop_succ (cfg : Config) (orc : DocOracles) (now : ℚ)
    (fuel attempt : ℕ) (ctx : DocumentContext) (prog : Option BatchProgress)
    (inv : ℕ) :
    retry_loop cfg orc now (fuel + 1) attempt ctx prog inv =
      match retry_attempt_step cfg orc now attempt ctx prog inv with
      | .done r => r
      | .next c p i => retry_loop cfg orc now fuel (attempt + 1) c p i := rfl

/-- Three consecutive rate-limit failures starting from a fresh failure
history never reach a fourth attempt: the retry loop exits with the
document `Skipped` — at the latest via quarantine at the third failure,
whose last-three failure pattern reads `rate_limit` three times — with
`retry_count ≤ 2` and at most three Analysis Service invocations. -/
theorem retry_loop_three_rate_limits (cfg : Config) (orc : DocOracles)
    (now : ℚ) (c0 : DocumentContext) (prog : Option BatchProgress)
    (m0 m1 m2 : String)
    (hmr : cfg.max_retries = 4)
    (hq : c0.quarantined = false)
    (_hcf : c0.consecutive_failures = 0)
    (hfp : c0.failure_pattern = [])
    (h0 : orc.service 0 = .raise m0)
    (k0 : (categorize_claude_error m0 1).error_type = .RATE_LIMIT)
    (h1 : orc.service 1 = .raise m1)
    (k1 : (categorize_claude_error m1 1).error_type = .RATE_LIMIT)
    (h2 : orc.service 2 = .raise m2)
    (k2 : (categorize_claude_error m2 1).error_type = .RATE_LIMIT) :
    (retry_loop cfg orc now (cfg.max_retries + 1) 0 c0 prog 0).success = false ∧
    (retry_loop cfg orc now (cfg.max_retries + 1) 0 c0 prog 0).context.processing_status
      = ProcessingStatus.skipped ∧
    (retry_loop cfg orc now (cfg.max_retries + 1) 0 c0 prog 0).context.retry_count ≤ 2 ∧
    (retry_loop cfg orc now (cfg.max_retries + 1) 0 c0 prog 0).invocations ≤ 3 := by
  have K0 := categorize_rate_limit_inv m0 k0
  have K1 := categorize_rate_limit_inv m1 k1
  have K2 := categorize_rate_limit_inv m2 k2
  rw [hmr, retry_loop_succ]
  rcases retry_attempt_step_rate_limit cfg orc now 0 c0 prog 0 m0 h0 K0
      (by omega) with ⟨r, hr, hrs, hrst, hrc, hri⟩ |
        ⟨c1, p1, hstep1, _, hqf1, hcf1, hfp1⟩
  · rw [hr]
    dsimp only
    exact ⟨hrs, hrst, by omega, by omega⟩
  · rw [hstep1]
    dsimp only
    rw [retry_loop_succ]
    rcases retry_attempt_step_rate_limit cfg orc now (0 + 1) c1 p1 (0 + 1) m1
        (by simpa using h1) K1 (by omega) with ⟨r, hr, hrs, hrst, hrc, hri⟩ |
          ⟨c2, p2, hstep2, _, hqf2, hcf2, hfp2⟩
    · rw [hr]
      dsimp only
      exact ⟨hrs, hrst, by omega, by omega⟩
    · rw [hstep2]
      dsimp only
      rw [retry_loop_succ]
      have hq2 : c2.quarantined = false := by rw [hqf2, hqf1, hq]
      have hfp1' : c1.failure_pattern = ["rate_limit"] := by
        simpa [hfp] using hfp1
      have hfp2' : c2.failure_pattern = ["rate_limit", "rate_limit"] := by
        simpa [hfp1'] using hfp2
      rcases retry_attempt_step_rate_limit cfg orc now (0 + 1 + 1) c2 p2
          (0 + 1 + 1) m2 (by simpa using h2) K2 (by omega) with
            ⟨r, hr, hrs, hrst, hrc, hri⟩ | ⟨c3, p3, hstep3, hsq3, _, _, _⟩
      · rw [hr]
        dsimp only
        exact ⟨hrs, hrst, by omega, by omega⟩
      · exact absurd (sq_after_three_rate_limits cfg c2 (0 + 1 + 1) m2 hq2 hfp2')
          (by simp [hsq3])

/-- Claim C3 (amended): a fresh, not-quarantined document whose first
three attempts fail with the retryable kind `RateLimit`, under
`max_retries = 4`, never reaches the 4th attempt and never completes:
`process_document_with_retry` exits with status `Skipped` — at the latest
quarantined at the 3rd failure, when the last three failure-pattern
entries all read `rate_limit` — with `retry_count ≤ 2` and at most three
Analysis Service invocations. -/
theorem c3_three_rate_limit_failures_never_complete
    (cfg : Config) (orc : DocOracles) (now : ℚ) (ctx : DocumentContext)
    (prog : Option BatchProgress) (text m0 m1 m2 : String)
    (hmr : cfg.max_retries = 4)
    (hext : orc.extract = .ok text)
    (htext : text.data.all Char.isWhitespace = false)
    (hfilt : orc.filter_verdict.1 = false)
    (hq : ctx.quarantined = false)
    (hcf : ctx.consecutive_failures = 0)
    (hfp : ctx.failure_pattern = [])
    (h0 : orc.service 0 = .raise m0)
    (k0 : (categorize_claude_error m0 1).error_type = .RATE_LIMIT)
    (h1 : orc.service 1 = .raise m1)
    (k1 : (categorize_claude_error m1 1).error_type = .RATE_LIMIT)
    (h2 : orc.service 2 = .raise m2)
    (k2 : (categorize_claude_error m2 1).error_type = .RATE_LIMIT) :
    (process_document_with_retry cfg orc now ctx prog).success = false ∧
    (process_document_with_retry cfg orc now ctx prog).context.processing_status
      = ProcessingStatus.skipped ∧
    (process_document_with_retry cfg orc now ctx prog).context.retry_count ≤ 2 ∧
    (process_document_with_retry cfg orc now ctx prog).invocations ≤ 3 := by
  simp only [process_document_with_retry, hext, htext, Bool.false_eq_true,
    if_false, hfilt]
  exact retry_loop_three_rate_limits cfg orc now _ prog m0 m1 m2 hmr
    (by simp [hq]) (by simp [hcf]) (by simp [hfp]) h0 k0 h1 k1 h2 k2

/-- A configuration with `max_retries = 4` as in the spec's Scenario B. -/
def cfg4 : Config := { max_retries := 4 }

/-- Oracles whose Analysis Service raises a rate-limit error on the first
three invocations and would succeed on any later one. -/
def rateLimitThriceOracles : DocOracles :=
  { extract := .ok "some extracted text", filter_verdict := (false, "ok")
    service := fun n =>
      if n < 3 then .raise "rate limit exceeded" else .ok "analysis output"
    jitter := fun _ => 0.2 }

/-- Claim C3, counterexample: a document failing 3 times with `RateLimit`
and then succeeding on the 4th attempt (`max_retries = 4`) does NOT end
`Completed` with `retry_count = 3` — the run exits `Skipped` with
`retry_count ≤ 2` after at most 3 service invocations, so the successful
4th attempt is never made. -/
theorem c3_counterexample :
    (process_document_with_retry cfg4 rateLimitThriceOracles 50 freshCtx
        none).context.processing_status ≠ ProcessingStatus.completed ∧
    (process_document_with_retry cfg4 rateLimitThriceOracles 50 freshCtx
        none).context.processing_status = ProcessingStatus.skipped ∧
    (process_document_with_retry cfg4 rateLimitThriceOracles 50 freshCtx
        none).context.retry_count ≠ 3 ∧
    (process_document_with_retry cfg4 rateLimitThriceOracles 50 freshCtx
        none).invocations ≤ 3 := by
  obtain ⟨ha, hb, hc, hd⟩ := retry_loop_three_rate_limits cfg4
    rateLimitThriceOracles 50
    { freshCtx with processing_start := some 50,
                    processing_status := ProcessingStatus.in_progress,
                    retry_delays := [] }
    none "rate limit exceeded" "rate limit exceeded" "rate limit exceeded"
    rfl rfl rfl rfl rfl rfl rfl rfl rfl rfl
  have hb' : (process_document_with_retry cfg4 rateLimitThriceOracles 50 freshCtx
      none).context.processing_status = ProcessingStatus.skipped := hb
  have hc' : (process_document_with_retry cfg4 rateLimitThriceOracles 50 freshCtx
      none).context.retry_count ≤ 2 := hc
  refine ⟨?_, hb', by omega, hd⟩
  rw [hb']
  decide

/-- Witness for C3 at the concrete oracles and fresh context. -/
theorem c3_three_rate_limit_failures_never_complete_witness :
    cfg4.max_retries = 4 ∧
    (categorize_claude_error "rate limit exceeded" 1).error_type
      = ClaudeErrorType.RATE_LIMIT ∧
    freshCtx.quarantined = false ∧
    ((process_document_with_retry cfg4 rateLimitThriceOracles 50 freshCtx
        none).success = false ∧
     (process_document_with_retry cfg4 rateLimitThriceOracles 50 freshCtx
        none).context.processing_status = ProcessingStatus.skipped ∧
     (process_document_with_retry cfg4 rateLimitThriceOracles 50 freshCtx
        none).context.retry_count ≤ 2 ∧
     (process_document_with_retry cfg4 rateLimitThriceOracles 50 freshCtx
        none).invocations ≤ 3) :=
  ⟨rfl, rfl, rfl,
   c3_three_rate_limit_failures_never_complete cfg4 rateLimitThriceOracles 50
     freshCtx none "some extracted text" "rate limit exceeded"
     "rate limit exceeded" "rate limit exceeded"
     rfl rfl rfl rfl rfl rfl rfl rfl rfl rfl rfl rfl rfl⟩
